import Mathlib

/-!
Shallow embedding of the OSRS item-filtering engine
(`src/python/osrs_filter.py`, class `OSRSItemFilter`) and proofs about it.

Modelling conventions:
* pandas numeric cells are rationals (`ℚ`); a nullable cell is `Option ℚ`
  (`none` = NaN/None).  Timestamps are epoch seconds (`ℤ`), `none` = NaT.
* A pandas DataFrame is a `Dataset`: a list of `Row`s plus one presence flag
  per *group* of columns that appear or disappear together in the program
  (price/derived columns, the three metadata columns, the volume-enrichment
  block).  Reading a column whose flag is off models a pandas `KeyError`,
  so fallible operations return `Except String _`.
* The external world (HTTP fetches, the wall clock, file reads/writes) is
  passed in as explicit arguments: the parsed fetch results, `now : ℤ`,
  and `Except`-valued read/write outcomes.  This is the standard oracle
  embedding of I/O; the engine logic itself is translated from the source.
* `decide`-style Bool predicates mirror pandas comparison semantics:
  a comparison against NaN is `false`.
-/

/-- Trend labels produced by `determine_price_trend` ("increasing",
"decreasing", "flat"). -/
inductive Trend where
  | increasing
  | decreasing
  | flat
deriving DecidableEq, Repr

/-- The block of 23 columns written by volume enrichment
(`load_volume_data` / `calculate_volume_metrics`): per-window volumes,
average prices, average margins, and the trend labels.  In the source these
columns exist either all together (after `load_volume_data` initialises
them) or not at all; `Dataset.hasVol` records that presence. -/
structure VolCols where
  bought_volume_20m : ℚ := 0
  sold_volume_20m : ℚ := 0
  avg_bought_price_20m : ℚ := 0
  avg_sold_price_20m : ℚ := 0
  avg_margin_gp_20m : ℚ := 0
  bought_volume_1h : ℚ := 0
  sold_volume_1h : ℚ := 0
  avg_bought_price_1h : ℚ := 0
  avg_sold_price_1h : ℚ := 0
  avg_margin_gp_1h : ℚ := 0
  bought_volume_24h : ℚ := 0
  sold_volume_24h : ℚ := 0
  avg_bought_price_24h : ℚ := 0
  avg_sold_price_24h : ℚ := 0
  avg_margin_gp_24h : ℚ := 0
  bought_price_trend_1h : Trend := .flat
  sold_price_trend_1h : Trend := .flat
  bought_price_trend_24h : Trend := .flat
  sold_price_trend_24h : Trend := .flat
  bought_price_trend_1w : Trend := .flat
  sold_price_trend_1w : Trend := .flat
  bought_price_trend_1m : Trend := .flat
  sold_price_trend_1m : Trend := .flat
deriving DecidableEq, Repr

/-- Default values of the volume block: `0.0` for every numeric column and
`flat` for every trend column, exactly the initialisation loop of
`load_volume_data`. -/
def default_vol : VolCols := {}

/-- One row of the merged dataframe.  Identity and price fields come from
`create_latest_prices_df` / `merge_prices_with_items`; the `margin_gp`,
`margin_pct`, `flip_efficiency`, `bought_time_rel`, `sold_time_rel`
fields are written by `compute_derived_columns`; `vol` holds the volume
block (meaningful only when the dataset's `hasVol` flag is on). -/
structure Row where
  item_id : ℤ
  name : Option String := none
  members : Option Bool := none
  buy_limit : Option ℚ := none
  bought_price : Option ℚ := none
  sold_price : Option ℚ := none
  last_bought_time : Option ℤ := none
  last_sold_time : Option ℤ := none
  margin_gp : Option ℚ := none
  margin_pct : Option ℚ := none
  flip_efficiency : Option ℚ := none
  bought_time_rel : Option String := none
  sold_time_rel : Option String := none
  vol : VolCols := {}
deriving DecidableEq, Repr

/-- A dataframe: rows plus column-presence flags.  `hasPrices` covers the
columns created together by the dataset build (`bought_price`,
`sold_price`, the two timestamps, and the derived columns recomputed from
them); `hasName`/`hasMembers`/`hasBuyLimit` cover the metadata columns
brought in by the merge; `hasVol` covers the volume block. -/
structure Dataset where
  rows : List Row
  hasPrices : Bool := true
  hasName : Bool := true
  hasMembers : Bool := true
  hasBuyLimit : Bool := true
  hasVol : Bool := false
deriving DecidableEq, Repr

/-- Engine state: `self.df` of `OSRSItemFilter` (`none` = `None`). -/
structure EngineState where
  df : Option Dataset
deriving DecidableEq, Repr

/-- One record of the parsed `latest` price snapshot
(`create_latest_prices_df`): `high`/`highTime` become
`bought_price`/`last_bought_time`, `low`/`lowTime` become
`sold_price`/`last_sold_time`. -/
structure PriceRec where
  item_id : ℤ
  high : Option ℚ := none
  highTime : Option ℤ := none
  low : Option ℚ := none
  lowTime : Option ℤ := none
deriving DecidableEq, Repr

/-- One record of the parsed `mapping` metadata (`create_item_mapping_df`);
`limit` is renamed to `buy_limit` by `merge_prices_with_items`. -/
structure ItemMeta where
  id : ℤ
  name : Option String := none
  members : Option Bool := none
  buy_limit : Option ℚ := none
deriving DecidableEq, Repr

/-- Comparison of a nullable cell against a lower bound, with pandas NaN
semantics: `NaN >= m` is false. -/
def optGe (v : Option ℚ) (m : ℚ) : Bool :=
  match v with
  | some x => decide (m ≤ x)
  | none => false

/-- Comparison of a nullable cell against an upper bound, with pandas NaN
semantics: `NaN <= m` is false. -/
def optLe (v : Option ℚ) (m : ℚ) : Bool :=
  match v with
  | some x => decide (x ≤ m)
  | none => false

/-- Round-half-to-even on rationals, the rounding used both by Python's
`round` and by pandas/numpy `.round(0)`. -/
def round_half_even (q : ℚ) : ℤ :=
  let f : ℤ := ⌊q⌋
  let frac : ℚ := q - (f : ℚ)
  if frac < 1/2 then f
  else if 1/2 < frac then f + 1
  else if f % 2 = 0 then f else f + 1

/-- Round to two decimal places (`Series.round(2)`), via half-to-even on
the scaled value.  The float implementation rounds the binary-float
scaled value; on the exact rationals of this embedding the decimal
rounding is exact. -/
def round2 (q : ℚ) : ℚ :=
  ((round_half_even (q * 100) : ℤ) : ℚ) / 100

/-- Least-squares slope of `ys` against the index `0, 1, ..., n-1`, the
value whose sign `determine_price_trend` takes from
`scipy.stats.linregress`.  For `n ≥ 2` the denominator is positive, so
the sign agrees with the float computation on exact inputs. -/
def linregressSlope (ys : List ℚ) : ℚ :=
  let n : ℚ := ys.length
  let xs : List ℚ := (List.range ys.length).map (fun i => (i : ℚ))
  let sx := xs.sum
  let sy := ys.sum
  let sxy := ((xs.zip ys).map (fun p => p.1 * p.2)).sum
  let sxx := (xs.map (fun x => x * x)).sum
  (n * sxy - sx * sy) / (n * sxx - sx * sx)

/-- Percentage change `(y[-1] - y[0]) / y[0] * 100` computed by
`determine_price_trend` (line 177 of the source). -/
def pctChange (prices : List ℚ) : ℚ :=
  ((prices.getLast?.getD 0) - prices.headI) / prices.headI * 100

/-- Translation of `determine_price_trend` (`osrs_filter.py` lines
159-187).  Fewer than 3 observations give `flat`; otherwise the code
computes `pct_change = (y[-1] - y[0]) / y[0] * 100` in numpy arithmetic:
when `y[0] = 0` that division does NOT raise but yields `inf`/`nan`
(with a runtime warning), and `abs(inf) < 1.0` and `abs(nan) < 1.0` are
both false, so the flat branch is not taken.  The conjunct
`prices.headI ≠ 0` below encodes exactly that: the `|pct_change| < 1`
test can only succeed when the first value is non-zero. -/
def determine_price_trend (prices : List ℚ) : Trend :=
  if prices.length < 3 then .flat
  else if prices.headI ≠ 0 ∧ |pctChange prices| < 1 then .flat
  else if 0 < linregressSlope prices then .increasing
  else .decreasing

/-- ASCII-lowered character list of a string (the embedding of Python's
`str.lower()` for the case-insensitive matching in the filter; the
pandas `case=False` matching is modelled at ASCII level). -/
def lowerData (s : String) : List Char :=
  s.data.map Char.toLower

/-- Whether `pat` is a prefix of the first list. -/
def startsWithChars : List Char → List Char → Bool
  | _, [] => true
  | [], _ :: _ => false
  | c :: cs, p :: ps => (c == p) && startsWithChars cs ps

/-- Whether `pat` occurs as a contiguous sublist of the second list. -/
def containsChars (pat : List Char) : List Char → Bool
  | [] => pat.isEmpty
  | c :: cs => startsWithChars (c :: cs) pat || containsChars pat cs

/-- Case-insensitive substring test: `hay.str.contains(pat, case=False)`
for a single literal pattern. -/
def containsCI (hay pat : String) : Bool :=
  containsChars (lowerData pat) (lowerData hay)

/-- Case-insensitive string equality against a lowercase literal
(`format.lower() == target`, `sort_direction.lower() == target`). -/
def lower_eq (a b : String) : Bool :=
  lowerData a == b.data

/-- Translation of `format_relative_time` (lines 621-665) on a single
timestamp; `now` is the wall clock in epoch seconds, `none` is NaT. -/
def format_relative_time (now : ℤ) : Option ℤ → String
  | none => "N/A"
  | some t =>
    let seconds : ℤ := now - t
    if seconds < 60 then "a minute ago"
    else if seconds < 3600 then toString (seconds / 60) ++ "m ago"
    else if seconds < 86400 then toString (seconds / 3600) ++ "h ago"
    else if seconds < 604800 then toString (seconds / 86400) ++ "d ago"
    else if seconds < 2592000 then toString (seconds / 604800) ++ "w ago"
    else toString (seconds / 2592000) ++ "mo ago"

/-- Translation of `merge_prices_with_items` (lines 305-321): returns an
empty frame when either input is empty, otherwise a left join of the
price rows onto the metadata keyed on the item id, with the metadata
`limit` field renamed to `buy_limit`.  The wiki mapping has unique item
ids, so the first match is the join partner; a priced item missing from
the metadata keeps null metadata fields. -/
def merge_prices_with_items (prices : List PriceRec) (items : List ItemMeta) : List Row :=
  if prices.isEmpty || items.isEmpty then []
  else
    prices.map (fun pr =>
      let meta := items.find? (fun it => it.id == pr.item_id)
      { item_id := pr.item_id
        bought_price := pr.high
        last_bought_time := pr.highTime
        sold_price := pr.low
        last_sold_time := pr.lowTime
        name := meta.bind (fun m => m.name)
        members := meta.bind (fun m => m.members)
        buy_limit := meta.bind (fun m => m.buy_limit) })

/-- Row-level part of `compute_derived_columns` (lines 341-364):
`margin_gp = bought_price - sold_price.round(0)` and
`margin_pct = ((bought_price - sold_price) / sold_price * 100).round(2)`
are NaN when either price is NaN; `flip_efficiency` is
`margin_gp * (sold_volume_1h + bought_volume_1h) / 2` when the volume
columns exist and the constant `0` otherwise; the relative-time strings
are formatted from the wall clock `now`. -/
def compute_derived_row (hasVol : Bool) (now : ℤ) (r : Row) : Row :=
  let mg : Option ℚ :=
    match r.bought_price, r.sold_price with
    | some b, some s => some (b - ((round_half_even s : ℤ) : ℚ))
    | _, _ => none
  let mp : Option ℚ :=
    match r.bought_price, r.sold_price with
    | some b, some s => some (round2 ((b - s) / s * 100))
    | _, _ => none
  let fe : Option ℚ :=
    if hasVol then
      mg.map (fun m => m * (r.vol.sold_volume_1h + r.vol.bought_volume_1h) / 2)
    else some 0
  { r with
    margin_gp := mg
    margin_pct := mp
    flip_efficiency := fe
    bought_time_rel := some (format_relative_time now r.last_bought_time)
    sold_time_rel := some (format_relative_time now r.last_sold_time) }

/-- Translation of `compute_derived_columns` on a dataset whose price
columns are present; the source returns immediately when the frame is
`None` or empty. -/
def compute_derived_columns (now : ℤ) (ds : Dataset) : Dataset :=
  if ds.rows.isEmpty then ds
  else { ds with rows := ds.rows.map (compute_derived_row ds.hasVol now) }

/-- Fallible entry to `compute_derived_columns`: when the frame is
non-empty but its price columns are absent (a file parsed into an
unrelated table), the first column access
`self.df['bought_price']` raises `KeyError`; the error value models that
exception. -/
def compute_derived_checked (now : ℤ) (ds : Dataset) : Except String Dataset :=
  if ds.rows.isEmpty then .ok ds
  else if ds.hasPrices then .ok (compute_derived_columns now ds)
  else .error "KeyError: bought_price"

/-- Translation of `load_data` (lines 323-339).  `items` and `prices` are
the parsed results of the two fetches (`create_item_mapping_df`,
`create_latest_prices_df`); an empty list is an empty frame.  With data
already loaded and no forced reload the state is returned unchanged;
with both fetches non-empty the merged frame with derived columns
becomes the new state; otherwise the failure is printed and `self.df`
is set to `None`. -/
def load_data (items : List ItemMeta) (prices : List PriceRec) (now : ℤ)
    (st : EngineState) (force_reload : Bool) : EngineState :=
  if !force_reload && st.df.isSome then st
  else if !items.isEmpty && !prices.isEmpty then
    { df := some (compute_derived_columns now
        { rows := merge_prices_with_items prices items
          hasPrices := true, hasName := true, hasMembers := true
          hasBuyLimit := true, hasVol := false }) }
  else { df := none }

/-- One iteration of the per-item fetch loop of `load_volume_data`
(lines 404-425): `fetch i` is the outcome of
`calculate_volume_metrics(i)`, where `none` stands both for an empty
metrics dict and for a raised-and-caught exception; a successful fetch
writes the whole volume block into every row whose `item_id` matches. -/
def vol_step (fetch : ℤ → Option VolCols) (rows : List Row) (i : ℤ) : List Row :=
  match fetch i with
  | some m => rows.map (fun r => if r.item_id = i then { r with vol := m } else r)
  | none => rows

/-- Translation of `load_volume_data` (lines 366-434).  With no frame or
an empty frame it returns unchanged; otherwise it (1) resolves the batch
(`item_ids` or the first `max_items` ids of the frame), (2) initialises
ALL volume columns of ALL rows to their defaults, (3) runs the per-item
fetch loop, and (4) recomputes `flip_efficiency` from the 1-hour
volumes; the read of `margin_gp` in step (4) raises `KeyError` when the
derived columns are absent, modelled by the error value. -/
def load_volume_data (fetch : ℤ → Option VolCols) (item_ids : Option (List ℤ))
    (max_items : ℕ) (st : EngineState) : Except String EngineState :=
  match st.df with
  | none => .ok st
  | some ds =>
    if ds.rows.isEmpty then .ok st
    else
      let ids : List ℤ :=
        match item_ids with
        | some l => l
        | none => (ds.rows.map (fun r => r.item_id)).take max_items
      let rows0 := ds.rows.map (fun r => { r with vol := default_vol })
      let rows1 := ids.foldl (vol_step fetch) rows0
      if ds.hasPrices then
        .ok { df := some { ds with
          rows := rows1.map (fun r =>
            { r with flip_efficiency := r.margin_gp.map (fun m =>
                m * (r.vol.sold_volume_1h + r.vol.bought_volume_1h) / 2) })
          hasVol := true } }
      else .error "KeyError: margin_gp"

/-- Translation of `has_data` (lines 612-619). -/
def has_data (st : EngineState) : Bool :=
  match st.df with
  | some d => !d.rows.isEmpty
  | none => false

/-- Whether a format string is one of the three supported interchange
formats of `save` / `load_from_file`. -/
def supported_format (fmt : String) : Bool :=
  lower_eq fmt "csv" || lower_eq fmt "json" || lower_eq fmt "pickle"

/-- Translation of `save` (lines 811-841).  `writeResult` is the outcome
of the pandas write call (`to_csv` / `to_json` / `to_pickle`), an
`Except` oracle whose error stands for a raised-and-caught exception.
Every failure path returns `False`; no exception escapes. -/
def save (st : EngineState) (fmt : String) (writeResult : Except String Unit) : Bool :=
  if !has_data st then false
  else if supported_format fmt then
    match writeResult with
    | .ok _ => true
    | .error _ => false
  else false

/-- Translation of `load_from_file` (lines 843-887).  `readResult` is the
outcome of the pandas read call together with the timestamp reparse, as
an `Except` oracle (its error covers a bad path, unparseable content and
a failing timestamp conversion).  On a successful read the source
assigns `self.df = df` FIRST and only then recomputes the derived
columns, still inside the `try`: if that recomputation raises (the
parsed table has no price columns) the exception is caught, `False` is
returned, and the already-replaced state is kept. -/
def load_from_file (st : EngineState) (now : ℤ) (fmt : String)
    (readResult : Except String Dataset) : Bool × EngineState :=
  if supported_format fmt then
    match readResult with
    | .error _ => (false, st)
    | .ok d =>
      match compute_derived_checked now d with
      | .ok d2 => (true, { df := some d2 })
      | .error _ => (false, { df := some d })
  else (false, st)

/-- The optional filter criteria of `apply_filter` (lines 436-450),
grouped into a record; a `none` field is an absent (`None`) argument.
The `verbose` flag only controls printing and is not modelled. -/
structure FilterParams where
  buy_limit_min : Option ℚ := none
  buy_limit_max : Option ℚ := none
  bought_price_min : Option ℚ := none
  bought_price_max : Option ℚ := none
  sold_price_min : Option ℚ := none
  sold_price_max : Option ℚ := none
  margin_min : Option ℚ := none
  margin_max : Option ℚ := none
  margin_pct_min : Option ℚ := none
  margin_pct_max : Option ℚ := none
  volume_1h_min : Option ℚ := none
  volume_24h_min : Option ℚ := none
  members_only : Option Bool := none
  max_hours_since_update : Option ℚ := none
  name_contains : Option String := none
  exclude_items : Option (List String) := none
deriving DecidableEq, Repr

/-- The `sort_by` argument of `apply_filter`: a `(column, direction)`
tuple or a bare column name (descending); `none` is `sort_by=None`. -/
inductive SortBy where
  | pair (column : String) (direction : String)
  | single (column : String)
deriving DecidableEq, Repr

/-- The `df.dropna(subset=['bought_price', 'sold_price'])` step (line
469): rows with a null price are removed unconditionally before any
criterion runs. -/
def dropna_prices (rows : List Row) : List Row :=
  rows.filter (fun r => r.bought_price.isSome && r.sold_price.isSome)

/-- A lower-bound criterion step: absent criterion is a no-op, otherwise
keep rows whose cell meets the bound (NaN fails). -/
def step_ge (key : Row → Option ℚ) (crit : Option ℚ) (rows : List Row) : List Row :=
  match crit with
  | some m => rows.filter (fun r => optGe (key r) m)
  | none => rows

/-- An upper-bound criterion step. -/
def step_le (key : Row → Option ℚ) (crit : Option ℚ) (rows : List Row) : List Row :=
  match crit with
  | some m => rows.filter (fun r => optLe (key r) m)
  | none => rows

/-- A lower-bound step guarded by column presence (`buy_limit`): with the
column absent the criterion is skipped. -/
def step_guard_ge (hasCol : Bool) (key : Row → Option ℚ) (crit : Option ℚ)
    (rows : List Row) : List Row :=
  match crit with
  | some m => if hasCol then rows.filter (fun r => optGe (key r) m) else rows
  | none => rows

/-- An upper-bound step guarded by column presence. -/
def step_guard_le (hasCol : Bool) (key : Row → Option ℚ) (crit : Option ℚ)
    (rows : List Row) : List Row :=
  match crit with
  | some m => if hasCol then rows.filter (fun r => optLe (key r) m) else rows
  | none => rows

/-- The dual-sided 1-hour volume criterion (lines 525-529 of the source):
the code reads `df['bought_volume_1h']` and `df['sold_volume_1h']`
WITHOUT checking that the columns exist, so on a dataset that has not
been volume-enriched the read raises `KeyError`.  (The class docstring,
lines 22-31, contains a column-existence-guarded version of this very
block that skips with a warning instead.) -/
def step_volume_1h (hasVol : Bool) (crit : Option ℚ) (rows : List Row) :
    Except String (List Row) :=
  match crit with
  | some m =>
    if hasVol then
      .ok (rows.filter (fun r =>
        decide (m ≤ r.vol.bought_volume_1h) && decide (m ≤ r.vol.sold_volume_1h)))
    else .error "KeyError: bought_volume_1h"
  | none => .ok rows

/-- The dual-sided 24-hour volume criterion (lines 531-535), likewise
unguarded in the source. -/
def step_volume_24h (hasVol : Bool) (crit : Option ℚ) (rows : List Row) :
    Except String (List Row) :=
  match crit with
  | some m =>
    if hasVol then
      .ok (rows.filter (fun r =>
        decide (m ≤ r.vol.bought_volume_24h) && decide (m ≤ r.vol.sold_volume_24h)))
    else .error "KeyError: bought_volume_24h"
  | none => .ok rows

/-- The membership-flag criterion (lines 537-541), guarded on the
`members` column; a NaN cell never equals the requested flag. -/
def step_members (hasCol : Bool) (crit : Option Bool) (rows : List Row) : List Row :=
  match crit with
  | some b => if hasCol then rows.filter (fun r => r.members == some b) else rows
  | none => rows

/-- The recency criterion (lines 543-555): keep rows where either
timestamp is non-null and at least `now - hours` (in seconds). -/
def step_recency (now : ℤ) (crit : Option ℚ) (rows : List Row) : List Row :=
  match crit with
  | some hours =>
    let cutoff : ℚ := (now : ℚ) - hours * 3600
    rows.filter (fun r =>
      (match r.last_bought_time with
       | some t => decide (cutoff ≤ (t : ℚ))
       | none => false)
      ||
      (match r.last_sold_time with
       | some t => decide (cutoff ≤ (t : ℚ))
       | none => false))
  | none => rows

/-- The name-inclusion criterion (lines 557-560): case-insensitive
substring match, NaN names excluded (`na=False`). -/
def step_name_contains (hasCol : Bool) (crit : Option String) (rows : List Row) :
    List Row :=
  match crit with
  | some s =>
    if hasCol then
      rows.filter (fun r =>
        match r.name with
        | some n => containsCI n s
        | none => false)
    else rows
  | none => rows

/-- The name-exclusion criterion (lines 562-566): the patterns are joined
into a regex alternation of literals, i.e. a row is dropped when ANY
pattern occurs case-insensitively in its name; with `na=False` a NaN
name does not match and is therefore kept. -/
def step_exclude (hasCol : Bool) (crit : Option (List String)) (rows : List Row) :
    List Row :=
  match crit with
  | some pats =>
    if hasCol then
      rows.filter (fun r =>
        !(match r.name with
          | some n => pats.any (fun p => containsCI n p)
          | none => false))
    else rows
  | none => rows

/-- The criteria section of `apply_filter` (lines 469-566) in source
order: the unconditional dropna (which raises when the price columns are
absent), then the sixteen optional criteria, with the two unguarded
volume criteria as the fallible steps. -/
def filter_criteria (ds : Dataset) (p : FilterParams) (now : ℤ) :
    Except String (List Row) :=
  if ds.hasPrices then
    let r0 := dropna_prices ds.rows
    let r1 := step_guard_ge ds.hasBuyLimit (fun r => r.buy_limit) p.buy_limit_min r0
    let r2 := step_guard_le ds.hasBuyLimit (fun r => r.buy_limit) p.buy_limit_max r1
    let r3 := step_ge (fun r => r.sold_price) p.bought_price_min r2
    let r4 := step_le (fun r => r.sold_price) p.bought_price_max r3
    let r5 := step_ge (fun r => r.bought_price) p.sold_price_min r4
    let r6 := step_le (fun r => r.bought_price) p.sold_price_max r5
    let r7 := step_ge (fun r => r.margin_gp) p.margin_min r6
    let r8 := step_le (fun r => r.margin_gp) p.margin_max r7
    let r9 := step_ge (fun r => r.margin_pct) p.margin_pct_min r8
    let r10 := step_le (fun r => r.margin_pct) p.margin_pct_max r9
    match step_volume_1h ds.hasVol p.volume_1h_min r10 with
    | .error e => .error e
    | .ok r11 =>
      match step_volume_24h ds.hasVol p.volume_24h_min r11 with
      | .error e => .error e
      | .ok r12 =>
        let r13 := step_members ds.hasMembers p.members_only r12
        let r14 := step_recency now p.max_hours_since_update r13
        let r15 := step_name_contains ds.hasName p.name_contains r14
        let r16 := step_exclude ds.hasName p.exclude_items r15
        .ok r16
  else .error "KeyError: bought_price"

/-- Sort key of a row for the numeric and timestamp columns that
`sort_values` can be pointed at in this model; `none` is a NaN key,
which pandas places last regardless of direction. -/
def sort_key (c : String) (r : Row) : Option ℚ :=
  if c == "last_bought_time" then r.last_bought_time.map (fun t => (t : ℚ))
  else if c == "last_sold_time" then r.last_sold_time.map (fun t => (t : ℚ))
  else if c == "bought_price" then r.bought_price
  else if c == "sold_price" then r.sold_price
  else if c == "buy_limit" then r.buy_limit
  else if c == "margin_gp" then r.margin_gp
  else if c == "margin_pct" then r.margin_pct
  else if c == "flip_efficiency" then r.flip_efficiency
  else if c == "item_id" then some ((r.item_id : ℚ))
  else if c == "bought_volume_20m" then some r.vol.bought_volume_20m
  else if c == "sold_volume_20m" then some r.vol.sold_volume_20m
  else if c == "avg_bought_price_20m" then some r.vol.avg_bought_price_20m
  else if c == "avg_sold_price_20m" then some r.vol.avg_sold_price_20m
  else if c == "avg_margin_gp_20m" then some r.vol.avg_margin_gp_20m
  else if c == "bought_volume_1h" then some r.vol.bought_volume_1h
  else if c == "sold_volume_1h" then some r.vol.sold_volume_1h
  else if c == "avg_bought_price_1h" then some r.vol.avg_bought_price_1h
  else if c == "avg_sold_price_1h" then some r.vol.avg_sold_price_1h
  else if c == "avg_margin_gp_1h" then some r.vol.avg_margin_gp_1h
  else if c == "bought_volume_24h" then some r.vol.bought_volume_24h
  else if c == "sold_volume_24h" then some r.vol.sold_volume_24h
  else if c == "avg_bought_price_24h" then some r.vol.avg_bought_price_24h
  else if c == "avg_sold_price_24h" then some r.vol.avg_sold_price_24h
  else if c == "avg_margin_gp_24h" then some r.vol.avg_margin_gp_24h
  else none

/-- Column-presence test (`sort_column in df.columns`) for the columns of
this model, driven by the dataset's presence flags. -/
def col_present (ds : Dataset) (c : String) : Bool :=
  c == "item_id"
  || (ds.hasPrices &&
      (c == "bought_price" || c == "sold_price"
        || c == "last_bought_time" || c == "last_sold_time"
        || c == "margin_gp" || c == "margin_pct" || c == "flip_efficiency"
        || c == "bought_time_rel" || c == "sold_time_rel"))
  || (ds.hasName && c == "name")
  || (ds.hasMembers && c == "members")
  || (ds.hasBuyLimit && c == "buy_limit")
  || (ds.hasVol &&
      (c == "bought_volume_20m" || c == "sold_volume_20m"
        || c == "avg_bought_price_20m" || c == "avg_sold_price_20m"
        || c == "avg_margin_gp_20m"
        || c == "bought_volume_1h" || c == "sold_volume_1h"
        || c == "avg_bought_price_1h" || c == "avg_sold_price_1h"
        || c == "avg_margin_gp_1h"
        || c == "bought_volume_24h" || c == "sold_volume_24h"
        || c == "avg_bought_price_24h" || c == "avg_sold_price_24h"
        || c == "avg_margin_gp_24h"
        || c == "bought_price_trend_1h" || c == "sold_price_trend_1h"
        || c == "bought_price_trend_24h" || c == "sold_price_trend_24h"
        || c == "bought_price_trend_1w" || c == "sold_price_trend_1w"
        || c == "bought_price_trend_1m" || c == "sold_price_trend_1m"))

/-- Key comparison used for sorting present keys. -/
def key_le (asc : Bool) (a b : Option ℚ) : Bool :=
  match a, b with
  | some x, some y => if asc then decide (x ≤ y) else decide (y ≤ x)
  | some _, none => true
  | none, some _ => false
  | none, none => true

/-- The `df.sort_values(column, ascending)` call: rows with a NaN key go
last regardless of direction (pandas `na_position='last'`); the sort
itself is modelled with insertion sort, which orders keys identically
(the source's default quicksort is likewise not required to be stable). -/
def sort_rows (c : String) (asc : Bool) (rows : List Row) : List Row :=
  let with_key := rows.filter (fun r => (sort_key c r).isSome)
  let no_key := rows.filter (fun r => (sort_key c r).isNone)
  List.insertionSort
    (fun a b => key_le asc (sort_key c a) (sort_key c b) = true) with_key
  ++ no_key

/-- The sorting section of `apply_filter` (lines 568-588): tuple form
sorts ascending exactly when the direction lowercases to `asc`; bare
column form sorts descending; an unknown column is a warned no-op. -/
def apply_sort (ds : Dataset) (sb : Option SortBy) (rows : List Row) : List Row :=
  match sb with
  | some (SortBy.pair c dir) =>
    if col_present ds c then sort_rows c (lower_eq dir "asc") rows else rows
  | some (SortBy.single c) =>
    if col_present ds c then sort_rows c false rows else rows
  | none => rows

/-- Translation of `apply_filter` (lines 436-599).  `items`/`prices`
parameterise the `load_data` retry that the source performs when no data
is loaded; `now` is the wall clock read inside the call.  The function
works on a copy of the frame, applies dropna, the criteria, the sort and
the limit (`0` meaning unbounded), then REPLACES `self.df` with the
filtered result and also returns it.  An error value models an uncaught
`KeyError` from the unguarded volume criteria (or from a dataset with no
price columns). -/
def apply_filter (items : List ItemMeta) (prices : List PriceRec) (now : ℤ)
    (st : EngineState) (p : FilterParams) (sort_by : Option SortBy) (limit : ℕ) :
    Except String (EngineState × List Row) :=
  let st1 :=
    if st.df.isNone || (match st.df with
                        | some d => d.rows.isEmpty
                        | none => false) then
      load_data items prices now st false
    else st
  match st1.df with
  | none => .ok (st1, [])
  | some ds =>
    if ds.rows.isEmpty then .ok (st1, [])
    else
      match filter_criteria ds p now with
      | .error e => .error e
      | .ok rows1 =>
        let rows2 := apply_sort ds sort_by rows1
        let rows3 := if 0 < limit then rows2.take limit else rows2
        .ok ({ df := some { ds with rows := rows3 } }, rows3)

/-- Row-level predicate of `step_ge`: `true` when the criterion is
absent. -/
def pred_ge (key : Row → Option ℚ) (crit : Option ℚ) (r : Row) : Bool :=
  match crit with
  | some m => optGe (key r) m
  | none => true

/-- Row-level predicate of `step_le`. -/
def pred_le (key : Row → Option ℚ) (crit : Option ℚ) (r : Row) : Bool :=
  match crit with
  | some m => optLe (key r) m
  | none => true

/-- Row-level predicate of `step_guard_ge`: `true` when the criterion is
absent or the column is missing (skipped criterion). -/
def pred_guard_ge (hasCol : Bool) (key : Row → Option ℚ) (crit : Option ℚ)
    (r : Row) : Bool :=
  match crit with
  | some m => !hasCol || optGe (key r) m
  | none => true

/-- Row-level predicate of `step_guard_le`. -/
def pred_guard_le (hasCol : Bool) (key : Row → Option ℚ) (crit : Option ℚ)
    (r : Row) : Bool :=
  match crit with
  | some m => !hasCol || optLe (key r) m
  | none => true

/-- Row-level predicate of `step_volume_1h` on the success path. -/
def pred_volume_1h (crit : Option ℚ) (r : Row) : Bool :=
  match crit with
  | some m => decide (m ≤ r.vol.bought_volume_1h) && decide (m ≤ r.vol.sold_volume_1h)
  | none => true

/-- Row-level predicate of `step_volume_24h` on the success path. -/
def pred_volume_24h (crit : Option ℚ) (r : Row) : Bool :=
  match crit with
  | some m => decide (m ≤ r.vol.bought_volume_24h) && decide (m ≤ r.vol.sold_volume_24h)
  | none => true

/-- Row-level predicate of `step_members`. -/
def pred_members (hasCol : Bool) (crit : Option Bool) (r : Row) : Bool :=
  match crit with
  | some b => !hasCol || r.members == some b
  | none => true

/-- Row-level predicate of `step_recency`. -/
def pred_recency (now : ℤ) (crit : Option ℚ) (r : Row) : Bool :=
  match crit with
  | some hours =>
    (match r.last_bought_time with
     | some t => decide ((now : ℚ) - hours * 3600 ≤ (t : ℚ))
     | none => false)
    ||
    (match r.last_sold_time with
     | some t => decide ((now : ℚ) - hours * 3600 ≤ (t : ℚ))
     | none => false)
  | none => true

/-- Row-level predicate of `step_name_contains`. -/
def pred_name_contains (hasCol : Bool) (crit : Option String) (r : Row) : Bool :=
  match crit with
  | some s =>
    !hasCol ||
    (match r.name with
     | some n => containsCI n s
     | none => false)
  | none => true

/-- Row-level predicate of `step_exclude`. -/
def pred_exclude (hasCol : Bool) (crit : Option (List String)) (r : Row) : Bool :=
  match crit with
  | some pats =>
    !hasCol ||
    !(match r.name with
      | some n => pats.any (fun p => containsCI n p)
      | none => false)
  | none => true

/-- The conjunction of the dropna condition and all sixteen criterion
predicates: on the success path, `filter_criteria` keeps exactly the
rows satisfying this single row predicate (so the criteria are a pure
conjunction of independent per-row predicates). -/
def crit_pred (ds : Dataset) (p : FilterParams) (now : ℤ) (r : Row) : Bool :=
  (r.bought_price.isSome && r.sold_price.isSome)
  && pred_guard_ge ds.hasBuyLimit (fun x => x.buy_limit) p.buy_limit_min r
  && pred_guard_le ds.hasBuyLimit (fun x => x.buy_limit) p.buy_limit_max r
  && pred_ge (fun x => x.sold_price) p.bought_price_min r
  && pred_le (fun x => x.sold_price) p.bought_price_max r
  && pred_ge (fun x => x.bought_price) p.sold_price_min r
  && pred_le (fun x => x.bought_price) p.sold_price_max r
  && pred_ge (fun x => x.margin_gp) p.margin_min r
  && pred_le (fun x => x.margin_gp) p.margin_max r
  && pred_ge (fun x => x.margin_pct) p.margin_pct_min r
  && pred_le (fun x => x.margin_pct) p.margin_pct_max r
  && pred_volume_1h p.volume_1h_min r
  && pred_volume_24h p.volume_24h_min r
  && pred_members ds.hasMembers p.members_only r
  && pred_recency now p.max_hours_since_update r
  && pred_name_contains ds.hasName p.name_contains r
  && pred_exclude ds.hasName p.exclude_items r

theorem mem_dropna_prices {rows : List Row} {r : Row} :
    r ∈ dropna_prices rows ↔
      r ∈ rows ∧ (r.bought_price.isSome && r.sold_price.isSome) = true := by
  simp [dropna_prices, List.mem_filter]

theorem mem_step_ge {key : Row → Option ℚ} {crit : Option ℚ} {rows : List Row}
    {r : Row} :
    r ∈ step_ge key crit rows ↔ r ∈ rows ∧ pred_ge key crit r = true := by
  cases crit <;> simp [step_ge, pred_ge, List.mem_filter]

theorem mem_step_le {key : Row → Option ℚ} {crit : Option ℚ} {rows : List Row}
    {r : Row} :
    r ∈ step_le key crit rows ↔ r ∈ rows ∧ pred_le key crit r = true := by
  cases crit <;> simp [step_le, pred_le, List.mem_filter]

theorem mem_step_guard_ge {hasCol : Bool} {key : Row → Option ℚ} {crit : Option ℚ}
    {rows : List Row} {r : Row} :
    r ∈ step_guard_ge hasCol key crit rows ↔
      r ∈ rows ∧ pred_guard_ge hasCol key crit r = true := by
  cases crit <;> cases hasCol <;>
    simp [step_guard_ge, pred_guard_ge, List.mem_filter]

theorem mem_step_guard_le {hasCol : Bool} {key : Row → Option ℚ} {crit : Option ℚ}
    {rows : List Row} {r : Row} :
    r ∈ step_guard_le hasCol key crit rows ↔
      r ∈ rows ∧ pred_guard_le hasCol key crit r = true := by
  cases crit <;> cases hasCol <;>
    simp [step_guard_le, pred_guard_le, List.mem_filter]

theorem mem_step_volume_1h {hasVol : Bool} {crit : Option ℚ} {rows out : List Row}
    (h : step_volume_1h hasVol crit rows = .ok out) (r : Row) :
    r ∈ out ↔ r ∈ rows ∧ pred_volume_1h crit r = true := by
  cases crit with
  | none =>
    simp only [step_volume_1h, Except.ok.injEq] at h
    subst h
    simp [pred_volume_1h]
  | some m =>
    cases hasVol with
    | false => simp [step_volume_1h] at h
    | true =>
      simp only [step_volume_1h, if_true, Except.ok.injEq] at h
      subst h
      simp [pred_volume_1h, List.mem_filter]

theorem mem_step_volume_24h {hasVol : Bool} {crit : Option ℚ} {rows out : List Row}
    (h : step_volume_24h hasVol crit rows = .ok out) (r : Row) :
    r ∈ out ↔ r ∈ rows ∧ pred_volume_24h crit r = true := by
  cases crit with
  | none =>
    simp only [step_volume_24h, Except.ok.injEq] at h
    subst h
    simp [pred_volume_24h]
  | some m =>
    cases hasVol with
    | false => simp [step_volume_24h] at h
    | true =>
      simp only [step_volume_24h, if_true, Except.ok.injEq] at h
      subst h
      simp [pred_volume_24h, List.mem_filter]

theorem mem_step_members {hasCol : Bool} {crit : Option Bool} {rows : List Row}
    {r : Row} :
    r ∈ step_members hasCol crit rows ↔
      r ∈ rows ∧ pred_members hasCol crit r = true := by
  cases crit <;> cases hasCol <;> simp [step_members, pred_members, List.mem_filter]

theorem mem_step_recency {now : ℤ} {crit : Option ℚ} {rows : List Row} {r : Row} :
    r ∈ step_recency now crit rows ↔ r ∈ rows ∧ pred_recency now crit r = true := by
  cases crit <;> simp [step_recency, pred_recency, List.mem_filter]

theorem mem_step_name_contains {hasCol : Bool} {crit : Option String}
    {rows : List Row} {r : Row} :
    r ∈ step_name_contains hasCol crit rows ↔
      r ∈ rows ∧ pred_name_contains hasCol crit r = true := by
  cases crit <;> cases hasCol <;>
    simp [step_name_contains, pred_name_contains, List.mem_filter]

theorem mem_step_exclude {hasCol : Bool} {crit : Option (List String)}
    {rows : List Row} {r : Row} :
    r ∈ step_exclude hasCol crit rows ↔
      r ∈ rows ∧ pred_exclude hasCol crit r = true := by
  cases crit <;> cases hasCol <;>
    simp [step_exclude, pred_exclude, List.mem_filter]

theorem mem_filter_criteria {ds : Dataset} {p : FilterParams} {now : ℤ}
    {out : List Row} (h : filter_criteria ds p now = .ok out) (r : Row) :
    r ∈ out ↔ r ∈ ds.rows ∧ crit_pred ds p now r = true := by
  unfold filter_criteria at h
  split at h
  · simp only [] at h
    split at h
    · simp at h
    · next r11 h1 =>
      split at h
      · simp at h
      · next r12 h2 =>
        simp only [Except.ok.injEq] at h
        subst h
        rw [mem_step_exclude, mem_step_name_contains, mem_step_recency,
          mem_step_members, mem_step_volume_24h h2 r, mem_step_volume_1h h1 r,
          mem_step_le, mem_step_ge, mem_step_le, mem_step_ge, mem_step_le,
          mem_step_ge, mem_step_le, mem_step_ge, mem_step_guard_le,
          mem_step_guard_ge, mem_dropna_prices]
        simp only [crit_pred, Bool.and_eq_true]
        tauto
  · simp at h

theorem mem_sort_rows {c : String} {asc : Bool} {rows : List Row} {r : Row} :
    r ∈ sort_rows c asc rows ↔ r ∈ rows := by
  simp only [sort_rows, List.mem_append]
  constructor
  · rintro (hmem | hmem)
    · exact (List.mem_filter.mp ((List.perm_insertionSort _ _).mem_iff.mp hmem)).1
    · exact (List.mem_filter.mp hmem).1
  · intro hmem
    cases hk : sort_key c r with
    | none =>
      exact Or.inr (List.mem_filter.mpr ⟨hmem, by simp [hk]⟩)
    | some v =>
      exact Or.inl ((List.perm_insertionSort _ _).mem_iff.mpr
        (List.mem_filter.mpr ⟨hmem, by simp [hk]⟩))

theorem mem_apply_sort {ds : Dataset} {sb : Option SortBy} {rows : List Row}
    {r : Row} :
    r ∈ apply_sort ds sb rows ↔ r ∈ rows := by
  match sb with
  | none => simp [apply_sort]
  | some (SortBy.pair c dir) =>
    by_cases hc : col_present ds c <;> simp [apply_sort, hc, mem_sort_rows]
  | some (SortBy.single c) =>
    by_cases hc : col_present ds c <;> simp [apply_sort, hc, mem_sort_rows]

theorem load_data_noforce_loaded {items : List ItemMeta} {prices : List PriceRec}
    {now : ℤ} {st : EngineState} (h : st.df.isSome = true) :
    load_data items prices now st false = st := by
  unfold load_data
  simp [h]

theorem dataset_rows_eta {ds : Dataset} (h : ds.rows = []) :
    ({ ds with rows := ([] : List Row) } : Dataset) = ds := by
  cases ds
  simp_all

theorem apply_filter_ok {items : List ItemMeta} {prices : List PriceRec} {now : ℤ}
    {st : EngineState} {p : FilterParams} {sb : Option SortBy}
    {st' : EngineState} {out : List Row} {ds : Dataset}
    (hdf : st.df = some ds)
    (h : apply_filter items prices now st p sb 0 = .ok (st', out)) :
    st'.df = some { ds with rows := out } ∧
      ∀ r, r ∈ out ↔ r ∈ ds.rows ∧ crit_pred ds p now r = true := by
  have hsome : st.df.isSome = true := by rw [hdf]; rfl
  unfold apply_filter at h
  rw [hdf] at h
  simp only [Option.isNone_some, Bool.false_or] at h
  cases he : ds.rows.isEmpty with
  | true =>
    have hnil : ds.rows = [] := by
      cases hr : ds.rows
      · rfl
      · rw [hr] at he; simp at he
    simp only [he, if_true, load_data_noforce_loaded hsome, hdf,
      Except.ok.injEq, Prod.mk.injEq] at h
    obtain ⟨h1, h2⟩ := h
    subst h1
    subst h2
    constructor
    · rw [hdf, dataset_rows_eta hnil]
    · intro r
      simp [hnil]
  | false =>
    have hne : ¬ (ds.rows.isEmpty = true) := by simp [he]
    rw [if_neg hne] at h
    rw [hdf] at h
    simp only [] at h
    rw [if_neg hne] at h
    split at h
    · simp at h
    · next rows1 h1 =>
      simp only [Nat.lt_irrefl, if_false, Except.ok.injEq, Prod.mk.injEq] at h
      obtain ⟨h2, h3⟩ := h
      subst h3
      constructor
      · rw [← h2]
      · intro r
        rw [mem_apply_sort, mem_filter_criteria h1 r]

theorem linregressSlope_three (a b c : ℚ) :
    linregressSlope [a, b, c] = (c - a) / 2 := by
  simp only [linregressSlope, List.length_cons, List.length_nil]
  norm_num [List.range_succ, List.zip]
  ring_nf

theorem pctChange_three (a b c : ℚ) :
    pctChange [a, b, c] = (c - a) / a * 100 := by
  simp [pctChange, List.getLast?, List.headI]

/-- C6: the trend classifier gives `flat` for fewer than 3 observations;
for 3 or more observations with a non-zero first value it gives `flat`
whenever `|pct_change| < 1` regardless of the regression slope sign, and
otherwise `increasing` exactly when the regression slope is positive and
`decreasing` otherwise. -/
theorem determine_price_trend_spec (prices : List ℚ) :
    (prices.length < 3 → determine_price_trend prices = Trend.flat) ∧
    (3 ≤ prices.length → prices.headI ≠ 0 →
      ((|pctChange prices| < 1 → determine_price_trend prices = Trend.flat) ∧
       (1 ≤ |pctChange prices| →
         determine_price_trend prices =
           if 0 < linregressSlope prices then Trend.increasing
           else Trend.decreasing))) := by
  refine ⟨?_, ?_⟩
  · intro hlen
    rw [determine_price_trend, if_pos hlen]
  · intro hlen h0
    refine ⟨?_, ?_⟩
    · intro hpct
      rw [determine_price_trend, if_neg (by omega), if_pos ⟨h0, hpct⟩]
    · intro hpct
      rw [determine_price_trend, if_neg (by omega),
        if_neg (fun hc => absurd hc.2 (not_lt.mpr hpct))]

/-- C6 witness: a 2-point series is flat; a 3-point series with
`pct_change = 0.99` is flat; a 3-point series with `pct_change = 1.01`
and positive slope is increasing. -/
theorem determine_price_trend_spec_witness :
    determine_price_trend [1, 2] = Trend.flat ∧
    determine_price_trend [100, 100, 100 + 99/100] = Trend.flat ∧
    1 ≤ |pctChange [100, 100 + 1/2, 101 + 1/100]| ∧
    0 < linregressSlope [100, 100 + 1/2, 101 + 1/100] ∧
    determine_price_trend [100, 100 + 1/2, 101 + 1/100] = Trend.increasing := by
  have h1 := (determine_price_trend_spec [1, 2]).1 (by norm_num)
  have h2 := ((determine_price_trend_spec [100, 100, 100 + 99/100]).2
    (by norm_num) (by norm_num [List.headI])).1
    (by rw [pctChange_three]; norm_num [abs_lt])
  have hpct : (1 : ℚ) ≤ |pctChange [100, 100 + 1/2, 101 + 1/100]| := by
    rw [pctChange_three]; norm_num [le_abs]
  have hslope : (0 : ℚ) < linregressSlope [100, 100 + 1/2, 101 + 1/100] := by
    rw [linregressSlope_three]; norm_num
  have h3 := ((determine_price_trend_spec [100, 100 + 1/2, 101 + 1/100]).2
    (by norm_num) (by norm_num [List.headI])).2 hpct
  rw [if_pos hslope] at h3
  exact ⟨h1, h2, hpct, hslope, h3⟩

/-- C4 counterexample: on the series `[0, 1, 2]` (3 observations, first
value `0`) the classifier does not return `flat`: the numpy division by
zero yields `inf`, the `|pct_change| < 1` test fails, and the positive
slope gives `increasing`. -/
theorem determine_price_trend_zero_counterexample :
    determine_price_trend [0, 1, 2] = Trend.increasing ∧
    determine_price_trend [0, 1, 2] ≠ Trend.flat := by
  have h : determine_price_trend [0, 1, 2] = Trend.increasing := by
    rw [determine_price_trend, if_neg (by norm_num),
      if_neg (by simp [List.headI]),
      if_pos (by rw [linregressSlope_three]; norm_num)]
  exact ⟨h, by rw [h]; decide⟩

/-- C4 amended: on a series of 3 or more observations whose first value
is `0`, the classifier does not raise (the division yields `inf`/`nan`
under numpy semantics, and this embedding is a total function); the
flat-threshold test necessarily fails, so the result is `increasing`
when the regression slope is positive and `decreasing` otherwise — not
`flat`. -/
theorem determine_price_trend_zero_first (prices : List ℚ)
    (hlen : 3 ≤ prices.length) (h0 : prices.headI = 0) :
    determine_price_trend prices =
      if 0 < linregressSlope prices then Trend.increasing
      else Trend.decreasing := by
  rw [determine_price_trend, if_neg (by omega), if_neg (by simp [h0])]

/-- C4 witness: the amended statement applied to `[0, 1, 2]`. -/
theorem determine_price_trend_zero_first_witness :
    3 ≤ ([0, 1, 2] : List ℚ).length ∧
    determine_price_trend [0, 1, 2] =
      if 0 < linregressSlope [0, 1, 2] then Trend.increasing
      else Trend.decreasing :=
  ⟨by norm_num, determine_price_trend_zero_first [0, 1, 2] (by norm_num) rfl⟩

/-- C5: after `compute_derived_columns`, every row with both prices
non-null has `margin_gp = bought_price - round(sold_price)` (pandas
`.round(0)`, half-to-even) and
`margin_pct = (bought_price - sold_price) / sold_price * 100` rounded to
2 decimals. -/
theorem compute_derived_margins (now : ℤ) (ds : Dataset) (r : Row) (b s : ℚ)
    (hr : r ∈ (compute_derived_columns now ds).rows)
    (hb : r.bought_price = some b) (hs : r.sold_price = some s) :
    r.margin_gp = some (b - ((round_half_even s : ℤ) : ℚ)) ∧
    r.margin_pct = some (round2 ((b - s) / s * 100)) := by
  unfold compute_derived_columns at hr
  split at hr
  · next hemp =>
    rw [List.isEmpty_iff] at hemp
    rw [hemp] at hr
    simp at hr
  · obtain ⟨r0, hr0, rfl⟩ := List.mem_map.mp hr
    simp only [compute_derived_row] at hb hs ⊢
    rw [hb, hs]
    simp

/-- C5 witness: a one-row dataset with `bought_price = 110`,
`sold_price = 100` gets `margin_gp = 110 - round(100)` and
`margin_pct = round2(10/100*100)`. -/
theorem compute_derived_margins_witness :
    compute_derived_row false 0
        { item_id := 1, bought_price := some 110, sold_price := some 100 } ∈
      (compute_derived_columns 0
        { rows := [{ item_id := 1, bought_price := some 110,
                     sold_price := some 100 }] }).rows ∧
    (compute_derived_row false 0
        { item_id := 1, bought_price := some 110,
          sold_price := some 100 }).margin_gp =
      some (110 - ((round_half_even 100 : ℤ) : ℚ)) ∧
    (compute_derived_row false 0
        { item_id := 1, bought_price := some 110,
          sold_price := some 100 }).margin_pct =
      some (round2 ((110 - 100) / 100 * 100)) := by
  have hmem : compute_derived_row false 0
      { item_id := 1, bought_price := some 110, sold_price := some 100 } ∈
      (compute_derived_columns 0
        { rows := [{ item_id := 1, bought_price := some 110,
                     sold_price := some 100 }] }).rows := by
    simp [compute_derived_columns]
  exact ⟨hmem, compute_derived_margins 0 _ _ 110 100 hmem rfl rfl⟩

/-- A concrete row with full price data and derived columns, used by the
concrete evaluations below. -/
def rowBasic : Row :=
  { item_id := 1, name := some "Abyssal whip", members := some true,
    buy_limit := some 8, bought_price := some 110, sold_price := some 100,
    last_bought_time := some 1000, last_sold_time := some 900,
    margin_gp := some 10, margin_pct := some 10, flip_efficiency := some 0 }

/-- A concrete loaded dataset (volume enrichment not run, so the volume
columns are absent: `hasVol = false`). -/
def dsLoaded : Dataset := { rows := [rowBasic] }

/-- C1: contrary to the claim, `apply_filter` with a non-null
`volume_1h_min` (resp. `volume_24h_min`) on a dataset whose volume
columns are absent does NOT skip the criterion: the source reads
`df['bought_volume_1h']` (lines 525-529) and `df['bought_volume_24h']`
(lines 531-535) without any column-existence check, so the call raises
`KeyError`.  The class docstring (lines 22-42 of the file) contains the
guarded skip-with-warning version of these two blocks, which the shipped
function body contradicts. -/
theorem volume_filter_missing_columns_raises :
    apply_filter [] [] 0 { df := some dsLoaded }
        { volume_1h_min := some 100 } none 0 =
      .error "KeyError: bought_volume_1h" ∧
    apply_filter [] [] 0 { df := some dsLoaded }
        { volume_24h_min := some 500 } none 0 =
      .error "KeyError: bought_volume_24h" :=
  ⟨rfl, rfl⟩

/-- C2 counterexample: with a dataset loaded and `force_reload=True`, a
metadata fetch returning empty does NOT leave the previous dataset
untouched: `load_data` executes `self.df = None` (line 339), discarding
it. -/
theorem load_data_failed_reload_counterexample :
    load_data [] [{ item_id := 1, high := some 110, low := some 100 }] 0
        { df := some dsLoaded } true = { df := none } ∧
    ({ df := some dsLoaded } : EngineState).df ≠ none :=
  ⟨rfl, by simp⟩

/-- C2 amended: if `load_data` is invoked with `force_reload` and either
the metadata fetch or the price fetch returns empty, the engine reports
the failure via printed output and without raising, but it DISCARDS the
previously loaded dataset, setting it to `None` (line 339), rather than
leaving it untouched. -/
theorem load_data_failed_reload_clears_state (items : List ItemMeta)
    (prices : List PriceRec) (now : ℤ) (st : EngineState)
    (h : items.isEmpty = true ∨ prices.isEmpty = true) :
    load_data items prices now st true = { df := none } := by
  unfold load_data
  rcases h with h | h <;> simp [h]

/-- C2 witness: the amended statement applied to an empty metadata fetch
with a loaded prior dataset. -/
theorem load_data_failed_reload_clears_state_witness :
    ([] : List ItemMeta).isEmpty = true ∧
    load_data [] [{ item_id := 1, high := some 110, low := some 100 }] 0
      { df := some dsLoaded } true = { df := none } :=
  ⟨rfl, load_data_failed_reload_clears_state _ _ _ _ (Or.inl rfl)⟩

/-- C3: `apply_filter` never modifies the rows of the engine's retained
dataset: the pipeline is a pure function of the frame it copies (in this
embedding the input dataset is read-only by construction, matching the
`df = self.df.copy()` of line 466), every returned row is an unmodified
member of the source row list, and the one state change is the final
replace step (line 598), which installs exactly the returned rows while
leaving every column-presence flag of the pre-call dataset intact. -/
theorem apply_filter_preserves_source_rows
    (items : List ItemMeta) (prices : List PriceRec) (now : ℤ)
    (st : EngineState) (p : FilterParams) (sb : Option SortBy) (limit : ℕ)
    (ds : Dataset) (st' : EngineState) (out : List Row)
    (hdf : st.df = some ds)
    (h : apply_filter items prices now st p sb limit = .ok (st', out)) :
    (∀ r, r ∈ out → r ∈ ds.rows) ∧ st'.df = some { ds with rows := out } := by
  have hsome : st.df.isSome = true := by rw [hdf]; rfl
  unfold apply_filter at h
  rw [hdf] at h
  simp only [Option.isNone_some, Bool.false_or] at h
  cases he : ds.rows.isEmpty with
  | true =>
    have hnil : ds.rows = [] := by
      cases hr : ds.rows
      · rfl
      · rw [hr] at he; simp at he
    simp only [he, if_true, load_data_noforce_loaded hsome, hdf,
      Except.ok.injEq, Prod.mk.injEq] at h
    obtain ⟨h1, h2⟩ := h
    subst h1
    subst h2
    exact ⟨fun r hr => by simp at hr, by rw [hdf, dataset_rows_eta hnil]⟩
  | false =>
    have hne : ¬ (ds.rows.isEmpty = true) := by simp [he]
    rw [if_neg hne] at h
    rw [hdf] at h
    simp only [] at h
    rw [if_neg hne] at h
    split at h
    · simp at h
    · next rows1 h1 =>
      simp only [Except.ok.injEq, Prod.mk.injEq] at h
      obtain ⟨h2, h3⟩ := h
      subst h3
      refine ⟨?_, by rw [← h2]⟩
      intro r hr
      have hr2 : r ∈ apply_sort ds sb rows1 := by
        by_cases hl : 0 < limit
        · rw [if_pos hl] at hr
          exact List.take_subset _ _ hr
        · rw [if_neg hl] at hr
          exact hr
      exact ((mem_filter_criteria h1 r).mp (mem_apply_sort.mp hr2)).1

/-- C3 witness: a successful concrete filter call whose output rows all
come from the source dataset and whose new state is the old dataset with
only the row list replaced. -/
theorem apply_filter_preserves_source_rows_witness :
    apply_filter [] [] 0 { df := some dsLoaded } { margin_min := some 5 }
        none 0 = .ok ({ df := some dsLoaded }, [rowBasic]) ∧
    rowBasic ∈ dsLoaded.rows := by
  have h : apply_filter [] [] 0 { df := some dsLoaded }
      { margin_min := some 5 } none 0 =
      .ok ({ df := some dsLoaded }, [rowBasic]) := rfl
  exact ⟨h, (apply_filter_preserves_source_rows _ _ _ _ _ _ _ _ _ _ rfl h).1
    rowBasic (by simp)⟩

theorem crit_pred_rows_irrel (ds : Dataset) (rows : List Row) (p : FilterParams)
    (now : ℤ) (r : Row) :
    crit_pred { ds with rows := rows } p now r = crit_pred ds p now r := rfl

/-- C7: on a loaded dataset, applying `apply_filter` with criteria `p1`
and then `apply_filter` with criteria `p2` on the (state-replaced)
result yields the same row set as the opposite order: the criteria are a
pure conjunction of independent per-row predicates, so their order does
not affect the final result set.  The wall clock is the explicit `now`
parameter, held fixed across the compared call sequences; both calls use
the unbounded limit `0` (the default) and an arbitrary common sort
specification, the result being compared as a set. -/
theorem apply_filter_criteria_commute
    (items : List ItemMeta) (prices : List PriceRec) (now : ℤ)
    (st : EngineState) (ds : Dataset) (p1 p2 : FilterParams)
    (sb : Option SortBy) (stA stAB stB stBA : EngineState)
    (out1 out12 out2 out21 : List Row)
    (hdf : st.df = some ds)
    (h1 : apply_filter items prices now st p1 sb 0 = .ok (stA, out1))
    (h2 : apply_filter items prices now stA p2 sb 0 = .ok (stAB, out12))
    (h3 : apply_filter items prices now st p2 sb 0 = .ok (stB, out2))
    (h4 : apply_filter items prices now stB p1 sb 0 = .ok (stBA, out21)) :
    ∀ r, r ∈ out12 ↔ r ∈ out21 := by
  obtain ⟨hA, hm1⟩ := apply_filter_ok hdf h1
  obtain ⟨hAB, hm12⟩ := apply_filter_ok hA h2
  obtain ⟨hB, hm2⟩ := apply_filter_ok hdf h3
  obtain ⟨hBA, hm21⟩ := apply_filter_ok hB h4
  have e12 : ∀ x, x ∈ out12 ↔
      (x ∈ ds.rows ∧ crit_pred ds p1 now x = true) ∧
        crit_pred ds p2 now x = true := by
    intro x
    have hx := hm12 x
    rw [show ({ ds with rows := out1 } : Dataset).rows = out1 from rfl,
      crit_pred_rows_irrel, hm1 x] at hx
    exact hx
  have e21 : ∀ x, x ∈ out21 ↔
      (x ∈ ds.rows ∧ crit_pred ds p2 now x = true) ∧
        crit_pred ds p1 now x = true := by
    intro x
    have hx := hm21 x
    rw [show ({ ds with rows := out2 } : Dataset).rows = out2 from rfl,
      crit_pred_rows_irrel, hm2 x] at hx
    exact hx
  intro r
  rw [e12 r, e21 r]
  tauto

/-- A second concrete row: low sell-side price, negative margin. -/
def rowLow : Row :=
  { item_id := 2, name := some "Bronze dagger", members := some false,
    buy_limit := some 100, bought_price := some 45, sold_price := some 60,
    last_bought_time := some 800, last_sold_time := some 700,
    margin_gp := some (-15), margin_pct := some (-25),
    flip_efficiency := some 0 }

/-- A concrete two-row loaded dataset. -/
def dsTwo : Dataset := { rows := [rowBasic, rowLow] }

/-- C7 witness: a margin criterion and a name-substring criterion applied
in both orders over a concrete two-row dataset produce the same row
set. -/
theorem apply_filter_criteria_commute_witness :
    apply_filter [] [] 0 { df := some dsTwo } { margin_min := some 5 }
        none 0 = .ok ({ df := some { rows := [rowBasic] } }, [rowBasic]) ∧
    apply_filter [] [] 0 { df := some { rows := [rowBasic] } }
        { name_contains := some "whip" } none 0 =
      .ok ({ df := some { rows := [rowBasic] } }, [rowBasic]) ∧
    apply_filter [] [] 0 { df := some dsTwo } { name_contains := some "whip" }
        none 0 = .ok ({ df := some { rows := [rowBasic] } }, [rowBasic]) ∧
    apply_filter [] [] 0 { df := some { rows := [rowBasic] } }
        { margin_min := some 5 } none 0 =
      .ok ({ df := some { rows := [rowBasic] } }, [rowBasic]) ∧
    (rowBasic ∈ ([rowBasic] : List Row) ↔ rowBasic ∈ ([rowBasic] : List Row)) := by
  have h1 : apply_filter [] [] 0 { df := some dsTwo } { margin_min := some 5 }
      none 0 = .ok ({ df := some { rows := [rowBasic] } }, [rowBasic]) := rfl
  have h2 : apply_filter [] [] 0 { df := some { rows := [rowBasic] } }
      { name_contains := some "whip" } none 0 =
      .ok ({ df := some { rows := [rowBasic] } }, [rowBasic]) := rfl
  have h3 : apply_filter [] [] 0 { df := some dsTwo }
      { name_contains := some "whip" } none 0 =
      .ok ({ df := some { rows := [rowBasic] } }, [rowBasic]) := rfl
  have h4 : apply_filter [] [] 0 { df := some { rows := [rowBasic] } }
      { margin_min := some 5 } none 0 =
      .ok ({ df := some { rows := [rowBasic] } }, [rowBasic]) := rfl
  exact ⟨h1, h2, h3, h4,
    apply_filter_criteria_commute [] [] 0 _ dsTwo _ _ none _ _ _ _ _ _ _ _
      rfl h1 h2 h3 h4 rowBasic⟩

/-- C9: in `apply_filter`, the parameter named `bought_price_min`
constrains the `sold_price` column (lines 485-488: the instant-buy fill
price) and the parameter named `sold_price_min` constrains the
`bought_price` column (lines 495-498): among the rows surviving the
unconditional price dropna, a row passes `bought_price_min = t` exactly
when its `sold_price ≥ t`, and passes `sold_price_min = t` exactly when
its `bought_price ≥ t`. -/
theorem apply_filter_price_param_swap
    (items : List ItemMeta) (prices : List PriceRec) (now : ℤ)
    (st : EngineState) (ds : Dataset) (t : ℚ)
    (st1 st2 : EngineState) (out1 out2 : List Row)
    (hdf : st.df = some ds)
    (h1 : apply_filter items prices now st { bought_price_min := some t }
      none 0 = .ok (st1, out1))
    (h2 : apply_filter items prices now st { sold_price_min := some t }
      none 0 = .ok (st2, out2)) :
    (∀ r, r ∈ out1 ↔ r ∈ ds.rows ∧ r.bought_price.isSome = true ∧
        r.sold_price.isSome = true ∧ optGe r.sold_price t = true) ∧
    (∀ r, r ∈ out2 ↔ r ∈ ds.rows ∧ r.bought_price.isSome = true ∧
        r.sold_price.isSome = true ∧ optGe r.bought_price t = true) := by
  obtain ⟨-, hm1⟩ := apply_filter_ok hdf h1
  obtain ⟨-, hm2⟩ := apply_filter_ok hdf h2
  constructor
  · intro r
    rw [hm1 r]
    simp only [crit_pred, pred_ge, pred_le, pred_guard_ge, pred_guard_le,
      pred_volume_1h, pred_volume_24h, pred_members, pred_recency,
      pred_name_contains, pred_exclude, Bool.and_eq_true, Bool.and_true,
      Bool.true_and, and_true, true_and]
    tauto
  · intro r
    rw [hm2 r]
    simp only [crit_pred, pred_ge, pred_le, pred_guard_ge, pred_guard_le,
      pred_volume_1h, pred_volume_24h, pred_members, pred_recency,
      pred_name_contains, pred_exclude, Bool.and_eq_true, Bool.and_true,
      Bool.true_and, and_true, true_and]
    tauto

/-- C9 witness: with threshold 50 on the two-row dataset,
`bought_price_min = 50` keeps both rows (their `sold_price`s are 100 and
60, even though `rowLow.bought_price = 45 < 50`), while
`sold_price_min = 50` keeps only the row with `bought_price = 110`. -/
theorem apply_filter_price_param_swap_witness :
    apply_filter [] [] 0 { df := some dsTwo } { bought_price_min := some 50 }
        none 0 = .ok ({ df := some dsTwo }, [rowBasic, rowLow]) ∧
    apply_filter [] [] 0 { df := some dsTwo } { sold_price_min := some 50 }
        none 0 = .ok ({ df := some { rows := [rowBasic] } }, [rowBasic]) ∧
    (rowLow ∈ ([rowBasic, rowLow] : List Row) ↔ rowLow ∈ dsTwo.rows ∧
      rowLow.bought_price.isSome = true ∧ rowLow.sold_price.isSome = true ∧
      optGe rowLow.sold_price 50 = true) := by
  have h1 : apply_filter [] [] 0 { df := some dsTwo }
      { bought_price_min := some 50 } none 0 =
      .ok ({ df := some dsTwo }, [rowBasic, rowLow]) := rfl
  have h2 : apply_filter [] [] 0 { df := some dsTwo }
      { sold_price_min := some 50 } none 0 =
      .ok ({ df := some { rows := [rowBasic] } }, [rowBasic]) := rfl
  exact ⟨h1, h2,
    (apply_filter_price_param_swap [] [] 0 _ dsTwo 50 _ _ _ _ rfl h1 h2).1
      rowLow⟩

/-- A table as parsed from an unrelated but well-formed file: it parses
(one row) but has none of the engine's columns. -/
def dsJunk : Dataset :=
  { rows := [{ item_id := 0 }], hasPrices := false, hasName := false,
    hasMembers := false, hasBuyLimit := false }

/-- C8 counterexample: a load that fails AFTER parsing does not leave the
prior dataset untouched.  With a prior dataset loaded, `load_from_file`
on a file that parses into a table without the price columns assigns
`self.df = df` (line 879) before `compute_derived_columns` raises
`KeyError` inside the same `try`; the call returns `False` (a load
failure), but the in-memory dataset has already been replaced by the
parsed junk. -/
theorem load_from_file_clobber_counterexample :
    (load_from_file { df := some dsLoaded } 0 "csv" (.ok dsJunk)).1 = false ∧
    (load_from_file { df := some dsLoaded } 0 "csv" (.ok dsJunk)).2 ≠
      { df := some dsLoaded } :=
  ⟨rfl, by decide⟩

/-- C8 amended: `save` and `load_from_file` report failure (bad path or
unreadable content via the caught exception, and an unsupported format)
as a boolean `False` return rather than a propagated exception; when the
READ itself fails the prior in-memory dataset is untouched, and on a
successful load the derived columns are unconditionally recomputed.
However, when the file parses into a non-empty table that lacks the
price columns, the call still returns `False` but the prior dataset has
already been replaced by the parsed content (the untouched-on-failure
guarantee holds only for read/parse failures, not for the
recomputation failure). -/
theorem persistence_error_handling :
    (∀ (st : EngineState) (fmt : String) (e : String),
      save st fmt (.error e) = false) ∧
    (∀ (st : EngineState) (fmt : String) (w : Except String Unit),
      supported_format fmt = false → save st fmt w = false) ∧
    (∀ (st : EngineState) (now : ℤ) (fmt : String) (e : String),
      load_from_file st now fmt (.error e) = (false, st)) ∧
    (∀ (st : EngineState) (now : ℤ) (fmt : String) (d : Dataset),
      supported_format fmt = false →
        load_from_file st now fmt (.ok d) = (false, st)) ∧
    (∀ (st : EngineState) (now : ℤ) (fmt : String) (d : Dataset),
      supported_format fmt = true → d.hasPrices = true →
        load_from_file st now fmt (.ok d) =
          (true, { df := some (compute_derived_columns now d) })) ∧
    (∀ (st : EngineState) (now : ℤ) (fmt : String) (d : Dataset),
      supported_format fmt = true → d.hasPrices = false → d.rows ≠ [] →
        load_from_file st now fmt (.ok d) = (false, { df := some d })) := by
  refine ⟨?_, ?_, ?_, ?_, ?_, ?_⟩
  · intro st fmt e
    unfold save
    cases hd : has_data st
    · simp
    · simp only [Bool.not_true, Bool.false_eq_true, if_false]
      split <;> rfl
  · intro st fmt w hfmt
    unfold save
    cases hd : has_data st
    · simp
    · simp [hfmt]
  · intro st now fmt e
    unfold load_from_file
    split <;> rfl
  · intro st now fmt d hfmt
    unfold load_from_file
    simp [hfmt]
  · intro st now fmt d hfmt hp
    unfold load_from_file
    rw [if_pos hfmt]
    unfold compute_derived_checked
    simp only []
    by_cases he : d.rows.isEmpty = true
    · rw [if_pos he]
      simp [compute_derived_columns, he]
    · rw [if_neg he, if_pos hp]
  · intro st now fmt d hfmt hp hne
    unfold load_from_file
    rw [if_pos hfmt]
    unfold compute_derived_checked
    simp only []
    rw [if_neg (by simpa using hne), hp]
    simp

/-- C8 witness: concrete instances — a write error and an unsupported
format give `False`; a read error gives `False` with the prior state
untouched; a successful load recomputes the derived columns. -/
theorem persistence_error_handling_witness :
    save { df := some dsLoaded } "csv" (.error "disk full") = false ∧
    supported_format "xml" = false ∧
    save { df := some dsLoaded } "xml" (.ok ()) = false ∧
    load_from_file { df := some dsLoaded } 0 "json" (.error "bad file") =
      (false, { df := some dsLoaded }) ∧
    load_from_file { df := none } 0 "CSV" (.ok dsTwo) =
      (true, { df := some (compute_derived_columns 0 dsTwo) }) := by
  refine ⟨persistence_error_handling.1 _ "csv" _, by decide, ?_, ?_, ?_⟩
  · exact persistence_error_handling.2.1 _ "xml" _ (by decide)
  · exact persistence_error_handling.2.2.1 _ 0 "json" "bad file"
  · exact persistence_error_handling.2.2.2.2.1 _ 0 "CSV" dsTwo (by decide) rfl

theorem vol_fold_outside (fetch : ℤ → Option VolCols) (ids0 : List ℤ) :
    ∀ ids : List ℤ, (∀ i, i ∈ ids → i ∈ ids0) →
      ∀ rows : List Row,
        (∀ r, r ∈ rows → r.item_id ∉ ids0 → r.vol = default_vol) →
        ∀ r, r ∈ ids.foldl (vol_step fetch) rows →
          r.item_id ∉ ids0 → r.vol = default_vol := by
  intro ids
  induction ids with
  | nil =>
    intro _ rows h0 r hr
    exact h0 r hr
  | cons i ids ih =>
    intro hsub rows h0 r hr hnot
    rw [List.foldl_cons] at hr
    refine ih (fun j hj => hsub j (List.mem_cons_of_mem _ hj))
      (vol_step fetch rows i) ?_ r hr hnot
    intro r' hr' hnot'
    unfold vol_step at hr'
    cases hf : fetch i with
    | none =>
      rw [hf] at hr'
      exact h0 r' hr' hnot'
    | some m =>
      rw [hf] at hr'
      obtain ⟨r0, hr0, rfl⟩ := List.mem_map.mp hr'
      by_cases hid : r0.item_id = i
      · rw [if_pos hid] at hnot'
        exact absurd (hsub i (List.mem_cons_self i ids))
          (by simpa [hid] using hnot')
      · rw [if_neg hid] at hnot' ⊢
        exact h0 r0 hr0 hnot'

/-- C10: `load_volume_data` on a loaded non-empty dataset first
reinitialises the whole volume block (volumes, average prices, average
margins all `0.0`; trend labels all `flat`) for EVERY row — including
items outside the requested batch — before the per-item fetches run, so
after the call any row whose item id is not in the batch carries the
default volume block regardless of what a previous enrichment had
stored; the volume columns are present (`hasVol`) afterwards. -/
theorem load_volume_data_reinitializes
    (fetch : ℤ → Option VolCols) (ids : List ℤ) (max_items : ℕ)
    (st st' : EngineState) (ds : Dataset)
    (hdf : st.df = some ds) (hne : ds.rows ≠ [])
    (h : load_volume_data fetch (some ids) max_items st = .ok st') :
    ∀ ds', st'.df = some ds' →
      ds'.hasVol = true ∧
      ∀ r, r ∈ ds'.rows → r.item_id ∉ ids → r.vol = default_vol := by
  unfold load_volume_data at h
  rw [hdf] at h
  simp only [] at h
  rw [if_neg (by simpa using hne)] at h
  split at h
  · next hp =>
    simp only [Except.ok.injEq] at h
    subst h
    intro ds' hds'
    simp only [Option.some.injEq] at hds'
    subst hds'
    refine ⟨rfl, ?_⟩
    intro r hr hnot
    simp only [List.mem_map] at hr
    obtain ⟨r1, hr1, rfl⟩ := hr
    have hid : r1.item_id ∉ ids := hnot
    have hvol : r1.vol = default_vol := by
      refine vol_fold_outside fetch ids ids (fun j hj => hj)
        (ds.rows.map (fun r => { r with vol := default_vol })) ?_ r1 hr1 hid
      intro r2 hr2 _
      simp only [List.mem_map] at hr2
      obtain ⟨r3, _, rfl⟩ := hr2
      rfl
    exact hvol
  · simp at h

/-- A row carrying values from a previous volume enrichment. -/
def rowPrevVol : Row :=
  { item_id := 1, bought_price := some 110, sold_price := some 100,
    vol := { bought_volume_1h := 500, sold_volume_1h := 600 } }

/-- A previously-enriched one-row dataset. -/
def dsPrevVol : Dataset := { rows := [rowPrevVol], hasVol := true }

/-- C10 witness: re-running enrichment with a batch that does not contain
item 1 (and whose only fetch fails) erases item 1's previous volume
values back to the defaults. -/
theorem load_volume_data_reinitializes_witness :
    load_volume_data (fun _ => none) (some [2]) 50 { df := some dsPrevVol } =
      .ok { df := some { rows := [{ rowPrevVol with vol := default_vol }],
                         hasVol := true } } ∧
    rowPrevVol.vol.bought_volume_1h = 500 ∧
    ({ rowPrevVol with vol := default_vol } : Row).vol = default_vol := by
  have h : load_volume_data (fun _ => none) (some [2]) 50
      { df := some dsPrevVol } =
      .ok { df := some { rows := [{ rowPrevVol with vol := default_vol }],
                         hasVol := true } } := rfl
  refine ⟨h, by decide, ?_⟩
  exact ((load_volume_data_reinitializes (fun _ => none) [2] 50 _ _ dsPrevVol
      rfl (by decide) h) _ rfl).2
    ({ rowPrevVol with vol := default_vol }) (by simp) (by decide)
example : determine_price_trend [1, 2] = .flat := by norm_num [determine_price_trend]
example : containsCI "Abyssal whip" "WHIP" = true := by decide
example : lower_eq "CSV" "csv" = true := by decide
example : round_half_even (5/2) = 2 := by norm_num [round_half_even]
example : round_half_even (7/2) = 4 := by norm_num [round_half_even]
example : round_half_even 100 = 100 := by norm_num [round_half_even]
